import Mathlib

/-!
Verification of the MLModel demonstration pipeline.

The source notebook (`src/MLModel.ipynb`) runs a linear sequence of steps:
delete prior model artifacts (best effort), read a two-column dataset,
split it into train/test with `df.sample(fraction, with_replacement=False,
shuffle=True, seed)` followed by an anti-join on all columns, fit a
univariate `LinearRegression`, compute `r2_score` on train and test data,
pickle the model and upload it to the object store under `params/v1/params.pkl`,
then later download and unpickle it, score new data, retrain, and upload the
new model under `params/v2/params.pkl`.

Rows carry the two numeric columns (`MeanDailyTemperature`, `IceCreamSales`);
scalars are modelled as rationals so that the least-squares algebra is exact.
The internals of the external libraries (polars sampling, scikit-learn fitting
and scoring, pickle serialisation, the S3 blob store) are not part of the
repository; where the behaviour of a step is decided by such a library, the
definition below models the documented contract the specification relies on,
and says so in its doc comment.
-/

namespace MLModel

/-- A dataset row: (MeanDailyTemperature, IceCreamSales). -/
abbrev Row : Type := ℚ × ℚ

/-- A dataset is an ordered table of rows, as read by `pl.read_parquet`. -/
abbrev Dataset : Type := List Row

/-- A fitted univariate linear model: the two scalar parameters
`coef_[0]` (slope) and `intercept_` of a `LinearRegression` instance. -/
structure Model where
  slope : ℚ
  intercept : ℚ
deriving DecidableEq, Repr

/-- Prediction of the model at a single predictor value, `model.predict`: `slope * x + intercept`. -/
def predict (m : Model) (x : ℚ) : ℚ := m.slope * x + m.intercept

/-- Modelled from the spec: a deterministic pseudo-random step standing in for
the seeded RNG of polars, whose algorithm is internal to the polars library and not
part of this repository.  A linear congruential update suffices: all that the
specification relies on is that the stream is a function of the seed. -/
def lcg (x : ℕ) : ℕ := (x * 1103515245 + 12345) % 2147483648

/-- Modelled from the spec: the core of `df.sample(fraction=..,
with_replacement=False, shuffle=True, seed=..)`.  Repeatedly removes the row at
a seed-determined position, `k` times, yielding a shuffled sample of `k`
distinct row positions without replacement.  The exact selection polars makes
is internal to the library; the specification relies only on the sample being
a deterministic function of (dataset, count, seed) drawn from the rows of the
dataset without replacement, which this definition provides. -/
def sampleGo : ℕ → ℕ → List Row → List Row
  | _, 0, _ => []
  | _, _ + 1, [] => []
  | st, k + 1, x :: xs =>
    (x :: xs).get ⟨st % (x :: xs).length, Nat.mod_lt _ (Nat.succ_pos _)⟩ ::
      sampleGo (lcg st) k ((x :: xs).eraseIdx (st % (x :: xs).length))

/-- The sampling step `df.sample`: draws `k` rows without replacement, seeded. -/
def sampleRows (seed k : ℕ) (rows : List Row) : List Row :=
  sampleGo (lcg seed) k rows

/-- Number of rows `df.sample(fraction=f)` draws from an `n`-row frame:
`⌊f · n⌋`. -/
def sampleCount (fraction : ℚ) (n : ℕ) : ℕ := (fraction * n).floor.toNat

/-- The error message for a malformed split fraction. -/
def splitErrMsg : String := "ValueError: fraction must lie in the open interval (0,1)"

/-- The split step of the notebook:
`df_train = df.sample(fraction, with_replacement=False, shuffle=True, seed)`
followed by `df_test = df.join(df_train, on=df.columns, how=anti)` — the
anti-join keeps exactly the rows of `df` whose full column tuple does not
occur in `df_train`.  Fraction validation is modelled from the spec: the
operation fails with a `ValueError` when the fraction is outside `(0,1)`
(the check itself lives in the dataframe library, not in the notebook). -/
def split (df : Dataset) (fraction : ℚ) (seed : ℕ) :
    Except String (Dataset × Dataset) :=
  if 0 < fraction ∧ fraction < 1 then
    let train := sampleRows seed (sampleCount fraction df.length) df
    Except.ok (train, df.filter (fun r => decide (r ∉ train)))
  else Except.error splitErrMsg

/-- Sum of the predictor column of a dataset. -/
def sumX (d : Dataset) : ℚ := (d.map Prod.fst).sum

/-- Sum of the response column of a dataset. -/
def sumY (d : Dataset) : ℚ := (d.map Prod.snd).sum

/-- Sum of squared predictor values. -/
def sumXX (d : Dataset) : ℚ := (d.map fun r => r.1 * r.1).sum

/-- Sum of predictor·response products. -/
def sumXY (d : Dataset) : ℚ := (d.map fun r => r.1 * r.2).sum

/-- The quantity `n·Σx² − (Σx)²`, which is `n²` times the predictor variance: it vanishes
exactly when the predictor column has zero variance (or the set is empty). -/
def denom (d : Dataset) : ℚ := (d.length : ℚ) * sumXX d - sumX d * sumX d

/-- The error message for a degenerate fit. -/
def fitErrMsg : String := "ValueError: predictor column has zero variance"

/-- Closed-form ordinary-least-squares slope. -/
def fitSlope (d : Dataset) : ℚ :=
  ((d.length : ℚ) * sumXY d - sumX d * sumY d) / denom d

/-- Closed-form ordinary-least-squares intercept. -/
def fitIntercept (d : Dataset) : ℚ :=
  (sumY d - fitSlope d * sumX d) / (d.length : ℚ)

/-- The `LinearRegression().fit` step on the single predictor column: plain
ordinary least squares, no regularization.  Modelled from the spec: the
degenerate case (zero predictor variance) fails with a `ValueError`, per
spec §4.1; the fitting algorithm itself lives in scikit-learn, not in the
notebook. -/
def fit (train : Dataset) : Except String Model :=
  if denom train = 0 then Except.error fitErrMsg
  else Except.ok ⟨fitSlope train, fitIntercept train⟩

/-- Sum of squared residuals between true and predicted responses. -/
def ssRes (yTrue yPred : List ℚ) : ℚ :=
  (List.zipWith (fun t p => (t - p) ^ 2) yTrue yPred).sum

/-- Total sum of squares of the true responses about their mean — equally, the
sum of squared residuals of the constant predictor that always answers the
mean response. -/
def ssTot (yTrue : List ℚ) : ℚ :=
  (yTrue.map fun t => (t - yTrue.sum / (yTrue.length : ℚ)) ^ 2).sum

/-- The scoring metric `sklearn.metrics.r2_score`: `R² = 1 − SSres/SStot`, unclamped.  The two
degenerate branches (`SStot = 0`) follow the documented behaviour of scikit-learn:
`1` when the residuals are also all zero, `0` otherwise. -/
def r2_score (yTrue yPred : List ℚ) : ℚ :=
  if ssTot yTrue = 0 then (if ssRes yTrue yPred = 0 then 1 else 0)
  else 1 - ssRes yTrue yPred / ssTot yTrue

/-- Scoring a model against a dataset: `r2_score(y, model.predict(x))`. -/
def score (m : Model) (d : Dataset) : ℚ :=
  r2_score (d.map Prod.snd) (d.map fun r => predict m r.1)

/-- Whether an `Except` computation returned normally. -/
def isOk {ε α : Type} : Except ε α → Bool
  | Except.ok _ => true
  | Except.error _ => false

/-- A serialised blob. -/
abbrev Blob : Type := List ℤ

/-- The key-addressed object store. -/
abbrev Store : Type := List (String × Blob)

/-- The read call `s3.download_fileobj`: read the blob at a key, if present. -/
def getObject : Store → String → Option Blob
  | [], _ => none
  | (k', v) :: s, k => if k' = k then some v else getObject s k

/-- The delete call `s3.delete_object`: remove the blob at a key. -/
def deleteObject : Store → String → Store
  | [], _ => []
  | (k', v) :: s, k =>
    if k' = k then deleteObject s k else (k', v) :: deleteObject s k

/-- The write call `s3.upload_fileobj`: write a blob under a key, silently overwriting. -/
def putObject (s : Store) (k : String) (v : Blob) : Store :=
  (k, v) :: deleteObject s k

/-- Modelled from the spec: `pickle.dump` of the fitted model, reduced to the
data the round-trip property is about — the exact numerator/denominator
representation of slope and intercept. -/
def pickleDump (m : Model) : Blob :=
  [m.slope.num, (m.slope.den : ℤ), m.intercept.num, (m.intercept.den : ℤ)]

/-- Modelled from the spec: `pickle.load`, the inverse of `pickleDump`;
any blob of the wrong shape fails to deserialise. -/
def pickleLoad : Blob → Option Model
  | [a, b, c, d] => some ⟨(a : ℚ) / (b : ℚ), (c : ℚ) / (d : ℚ)⟩
  | _ => none

/-- Saving, `save_model`: pickle the model and upload the bytes under the key. -/
def save_model (s : Store) (m : Model) (k : String) : Store :=
  putObject s k (pickleDump m)

/-- Loading, `load_model`: download the bytes at the key and unpickle them. -/
def load_model (s : Store) (k : String) : Option Model :=
  (getObject s k).bind pickleLoad

/-- Key of the first model artifact. -/
def keyV1 : String := "params/v1/params.pkl"

/-- Key of the retrained model artifact. -/
def keyV2 : String := "params/v2/params.pkl"

/-- The fixed training fraction of the notebook. -/
def TRAIN_FRAC : ℚ := 7/10

/-- The fixed sampling seed of the notebook. -/
def SEED : ℕ := 55

/-- The message the cleanup step prints when a delete fails. -/
def delFailMsg : String := "Deletion failed, possibly no files"

/-- The cleanup cell of the notebook: one `try` block holding two sequential
`s3.delete_object` calls (v1 then v2), with a catch-all `except` that prints
the exception and a message and re-raises nothing.  The return type — a store
and a log, never an error — is the no-re-raise policy.  If the v1 delete
raises, the v2 delete is never reached. -/
def cleanup (delV1 delV2 : Except String Unit) (store : Store) :
    Store × List String :=
  match delV1 with
  | Except.error e => (store, [e, delFailMsg])
  | Except.ok _ =>
    let s1 := deleteObject store keyV1
    match delV2 with
    | Except.error e => (s1, [e, delFailMsg])
    | Except.ok _ => (deleteObject s1 keyV2, [])

/-- Sequencing of fallible steps: a failing step aborts the run with its
error, uncaught. -/
def andThen {α β : Type} (x : Except String α) (f : α → Except String β) :
    Except String β :=
  match x with
  | Except.error e => Except.error e
  | Except.ok a => f a

/-- A missing or undeserialisable model artifact aborts the run. -/
def withModel {β : Type} (x : Option Model) (err : String)
    (f : Model → Except String β) : Except String β :=
  match x with
  | none => Except.error err
  | some m => f m

/-- The split-and-fit portion shared by both halves of the notebook. -/
def trainModel (df : Dataset) : Except String (Dataset × Dataset × Model) :=
  andThen (split df TRAIN_FRAC SEED) fun p =>
    andThen (fit p.1) fun m => Except.ok (p.1, p.2, m)

/-- Everything the first half of the notebook produces. -/
structure Phase1Out where
  store : Store
  logs : List String
  model : Model
  r2train : ℚ
  r2test : ℚ
deriving DecidableEq, Repr

/-- The first half of the notebook: cleanup (best effort), read `data1`,
split, fit, score on train and test, pickle and upload under the v1 key.
Every error other than a delete failure aborts the run with that error. -/
def runPhase1 (delV1 delV2 : Except String Unit)
    (data1 : Except String Dataset) (store : Store) :
    Except String Phase1Out :=
  andThen data1 fun df1 =>
    andThen (trainModel df1) fun t =>
      Except.ok ⟨save_model (cleanup delV1 delV2 store).1 t.2.2 keyV1,
        (cleanup delV1 delV2 store).2, t.2.2, score t.2.2 t.1, score t.2.2 t.2.1⟩

/-- The second half of the notebook: download and unpickle the v1 model,
read `data2`, score it against the loaded model, re-split, re-fit, and upload
the new model under the v2 key.  The retrain never writes the v1 key. -/
def runPhase2 (data2 : Except String Dataset) (store : Store) :
    Except String (Store × Model × ℚ) :=
  withModel (load_model store keyV1) "DeserializationError: no model at the v1 key"
    fun lm =>
      andThen data2 fun df2 =>
        andThen (trainModel df2) fun t =>
          Except.ok (save_model store t.2.2 keyV2, t.2.2, score lm df2)

/-! ### Verified properties -/

/-- Every row of a seeded sample is a row of the source frame. -/
theorem sampleGo_subset :
    ∀ (k st : ℕ) (l : List Row) (r : Row), r ∈ sampleGo st k l → r ∈ l := by
  intro k
  induction k with
  | zero => intro st l r h; simp [sampleGo] at h
  | succ k ih =>
    intro st l r h
    cases l with
    | nil => simp [sampleGo] at h
    | cons x xs =>
      simp only [sampleGo, List.mem_cons] at h
      rcases h with h | h
      · exact h ▸ List.get_mem _ _ _
      · exact (List.eraseIdx_sublist _ _).subset (ih _ _ _ h)

theorem sampleRows_subset (seed k : ℕ) (l : List Row) (r : Row)
    (h : r ∈ sampleRows seed k l) : r ∈ l :=
  sampleGo_subset k (lcg seed) l r h

/-- C1: for every dataset, seed, and fraction in (0,1), `split` returns a
train/test pair that is row-disjoint and whose union, as a set of rows, is
exactly the set of rows of the input — including when the input contains
duplicate rows. -/
theorem split_partition (df : Dataset) (fraction : ℚ) (seed : ℕ)
    (h0 : 0 < fraction) (h1 : fraction < 1) :
    ∃ tr te, split df fraction seed = Except.ok (tr, te) ∧
      (∀ r : Row, ¬(r ∈ tr ∧ r ∈ te)) ∧
      (∀ r : Row, r ∈ df ↔ (r ∈ tr ∨ r ∈ te)) := by
  refine ⟨sampleRows seed (sampleCount fraction df.length) df,
    df.filter (fun r => decide (r ∉ sampleRows seed (sampleCount fraction df.length) df)),
    ?_, ?_, ?_⟩
  · simp [split, h0, h1]
  · intro r ⟨htr, hte⟩
    rw [List.mem_filter, decide_eq_true_iff] at hte
    exact hte.2 htr
  · intro r
    constructor
    · intro hdf
      by_cases htr : r ∈ sampleRows seed (sampleCount fraction df.length) df
      · exact Or.inl htr
      · exact Or.inr (by rw [List.mem_filter, decide_eq_true_iff]; exact ⟨hdf, htr⟩)
    · rintro (htr | hte)
      · exact sampleRows_subset _ _ _ _ htr
      · exact (List.mem_filter.mp hte).1

/-- C1 witness: a concrete split of a dataset containing a duplicate row. -/
theorem split_partition_witness :
    (0 : ℚ) < 1/2 ∧ (1/2 : ℚ) < 1 ∧
      (∃ tr te, split [((1:ℚ),(2:ℚ)), (1,2), (3,4), (5,6)] (1/2) 7 = Except.ok (tr, te) ∧
        (∀ r : Row, ¬(r ∈ tr ∧ r ∈ te)) ∧
        (∀ r : Row, r ∈ [((1:ℚ),(2:ℚ)), (1,2), (3,4), (5,6)] ↔ (r ∈ tr ∨ r ∈ te))) :=
  ⟨by norm_num, by norm_num,
    split_partition [((1:ℚ),(2:ℚ)), (1,2), (3,4), (5,6)] (1/2) 7 (by norm_num) (by norm_num)⟩

theorem zipWith_map_same {α β γ : Type} (f : β → β → γ) (g h : α → β) :
    ∀ l : List α, List.zipWith f (l.map g) (l.map h) = l.map fun x => f (g x) (h x) := by
  intro l
  induction l with
  | nil => simp
  | cons a l ih => simp [ih]

theorem score_ssRes (m : Model) (d : Dataset) :
    ssRes (d.map Prod.snd) (d.map fun r => predict m r.1)
      = (d.map fun r => (r.2 - predict m r.1) ^ 2).sum := by
  unfold ssRes
  rw [zipWith_map_same]

theorem sum_sq_nonneg {α : Type} (l : List α) (f : α → ℚ) :
    0 ≤ (l.map fun x => (f x) ^ 2).sum := by
  induction l with
  | nil => simp
  | cons a l ih =>
    simp only [List.map_cons, List.sum_cons]
    have := sq_nonneg (f a)
    linarith

theorem sum_sq_eq_zero_iff {α : Type} (l : List α) (f : α → ℚ) :
    (l.map fun x => (f x) ^ 2).sum = 0 ↔ ∀ x ∈ l, f x = 0 := by
  induction l with
  | nil => simp
  | cons a l ih =>
    simp only [List.map_cons, List.sum_cons, List.mem_cons]
    constructor
    · intro h
      have h1 : 0 ≤ (f a) ^ 2 := sq_nonneg _
      have h2 : 0 ≤ (l.map fun x => (f x) ^ 2).sum := sum_sq_nonneg l f
      have ha : (f a) ^ 2 = 0 := by linarith
      have hl : (l.map fun x => (f x) ^ 2).sum = 0 := by linarith
      intro x hx
      rcases hx with rfl | hx
      · exact (pow_eq_zero_iff (by norm_num : (2:ℕ) ≠ 0)).mp ha
      · exact ih.mp hl x hx
    · intro h
      have ha : f a = 0 := h a (Or.inl rfl)
      have hl : (l.map fun x => (f x) ^ 2).sum = 0 :=
        ih.mpr fun x hx => h x (Or.inr hx)
      rw [ha, hl]
      ring

/-- C2: whenever `fit` succeeds on a training set, scoring the fitted model on
that same training set gives `R² ≤ 1`, with equality exactly when every
residual is zero (a perfect fit). -/
theorem fit_score_train (tr : Dataset) (m : Model) (_hfit : fit tr = Except.ok m) :
    score m tr ≤ 1 ∧ (score m tr = 1 ↔ ∀ r ∈ tr, r.2 - predict m r.1 = 0) := by
  have hres := score_ssRes m tr
  have hresnn : 0 ≤ (tr.map fun r => (r.2 - predict m r.1) ^ 2).sum :=
    sum_sq_nonneg tr _
  have hz := sum_sq_eq_zero_iff tr fun r => r.2 - predict m r.1
  have httnn : 0 ≤ ssTot (tr.map Prod.snd) := sum_sq_nonneg _ _
  simp only [score, r2_score]
  split_ifs with ht hr
  · rw [hres] at hr
    exact ⟨le_refl 1, ⟨fun _ => hz.mp hr, fun _ => rfl⟩⟩
  · rw [hres] at hr
    constructor
    · norm_num
    · constructor
      · intro h; exact absurd h (by norm_num)
      · intro h; exact absurd (hz.mpr h) hr
  · have htpos : 0 < ssTot (tr.map Prod.snd) := lt_of_le_of_ne httnn (Ne.symm ht)
    have hrnn : 0 ≤ ssRes (tr.map Prod.snd) (tr.map fun r => predict m r.1) := by
      rw [hres]; exact hresnn
    constructor
    · have : 0 ≤ ssRes (tr.map Prod.snd) (tr.map fun r => predict m r.1)
          / ssTot (tr.map Prod.snd) := div_nonneg hrnn httnn
      linarith
    · constructor
      · intro h
        have hdiv : ssRes (tr.map Prod.snd) (tr.map fun r => predict m r.1)
            / ssTot (tr.map Prod.snd) = 0 := by linarith
        have h0 : ssRes (tr.map Prod.snd) (tr.map fun r => predict m r.1) = 0 :=
          by rcases div_eq_zero_iff.mp hdiv with h0 | h0
             · exact h0
             · exact absurd h0 ht
        rw [hres] at h0
        exact hz.mp h0
      · intro h
        have h0 : ssRes (tr.map Prod.snd) (tr.map fun r => predict m r.1) = 0 := by
          rw [hres]; exact hz.mpr h
        rw [h0]
        simp

/-- C2 witness: `fit` succeeds on the collinear set `{(0,0),(1,1),(2,2)}`
with slope 1 and intercept 0, and the training-set score is then 1. -/
theorem fit_score_train_witness :
    fit [((0:ℚ),(0:ℚ)), (1,1), (2,2)] = Except.ok ⟨1, 0⟩ ∧
      (score ⟨1, 0⟩ [((0:ℚ),(0:ℚ)), (1,1), (2,2)] ≤ 1 ∧
        (score ⟨1, 0⟩ [((0:ℚ),(0:ℚ)), (1,1), (2,2)] = 1 ↔
          ∀ r ∈ [((0:ℚ),(0:ℚ)), (1,1), (2,2)], r.2 - predict ⟨1, 0⟩ r.1 = 0)) :=
  ⟨by norm_num [fit, fitSlope, fitIntercept, denom, sumX, sumY, sumXX, sumXY],
    fit_score_train _ ⟨1, 0⟩
      (by norm_num [fit, fitSlope, fitIntercept, denom, sumX, sumY, sumXX, sumXY])⟩

/-- C5: on any dataset whose response column is non-degenerate (`SStot ≠ 0`),
`score` returns exactly `1 − SSres/SStot`, unclamped, and is negative whenever
the squared-residual total of the model exceeds that of predicting the mean. -/
theorem score_formula (m : Model) (d : Dataset)
    (h : ssTot (d.map Prod.snd) ≠ 0) :
    score m d = 1 - ssRes (d.map Prod.snd) (d.map fun r => predict m r.1)
        / ssTot (d.map Prod.snd) ∧
      (ssTot (d.map Prod.snd) < ssRes (d.map Prod.snd) (d.map fun r => predict m r.1) →
        score m d < 0) := by
  have httnn : 0 ≤ ssTot (d.map Prod.snd) := sum_sq_nonneg _ _
  have htpos : 0 < ssTot (d.map Prod.snd) := lt_of_le_of_ne httnn (Ne.symm h)
  have hval : score m d = 1 - ssRes (d.map Prod.snd) (d.map fun r => predict m r.1)
      / ssTot (d.map Prod.snd) := by
    simp only [score, r2_score, if_neg h]
  refine ⟨hval, ?_⟩
  intro hlt
  rw [hval]
  have : 1 < ssRes (d.map Prod.snd) (d.map fun r => predict m r.1)
      / ssTot (d.map Prod.snd) := (one_lt_div htpos).mpr hlt
  linarith

/-- C5 witness: the model `y = −x` on `{(0,0),(1,1)}` has `SStot = 1/2`,
`SSres = 4`, hence score `1 − 8 = −7 < 0`. -/
theorem score_formula_witness :
    ssTot ([((0:ℚ),(0:ℚ)), (1,1)].map Prod.snd) ≠ 0 ∧
      (score ⟨-1, 0⟩ [((0:ℚ),(0:ℚ)), (1,1)]
          = 1 - ssRes ([((0:ℚ),(0:ℚ)), (1,1)].map Prod.snd)
              ([((0:ℚ),(0:ℚ)), (1,1)].map fun r => predict ⟨-1, 0⟩ r.1)
            / ssTot ([((0:ℚ),(0:ℚ)), (1,1)].map Prod.snd) ∧
        (ssTot ([((0:ℚ),(0:ℚ)), (1,1)].map Prod.snd)
            < ssRes ([((0:ℚ),(0:ℚ)), (1,1)].map Prod.snd)
                ([((0:ℚ),(0:ℚ)), (1,1)].map fun r => predict ⟨-1, 0⟩ r.1) →
          score ⟨-1, 0⟩ [((0:ℚ),(0:ℚ)), (1,1)] < 0)) :=
  ⟨by norm_num [ssTot], score_formula ⟨-1, 0⟩ _ (by norm_num [ssTot])⟩

theorem sum_map_resid (l : Dataset) (s c : ℚ) :
    (l.map fun r => r.2 - (s * r.1 + c)).sum
      = sumY l - s * sumX l - (l.length : ℚ) * c := by
  induction l with
  | nil => simp [sumX, sumY]
  | cons a l ih =>
    simp only [List.map_cons, List.sum_cons, List.length_cons, Nat.cast_add, Nat.cast_one,
      sumX, sumY] at ih ⊢
    rw [ih]
    ring

theorem sum_map_xresid (l : Dataset) (s c : ℚ) :
    (l.map fun r => r.1 * (r.2 - (s * r.1 + c))).sum
      = sumXY l - s * sumXX l - c * sumX l := by
  induction l with
  | nil => simp [sumX, sumXX, sumXY]
  | cons a l ih =>
    simp only [List.map_cons, List.sum_cons, sumX, sumXX, sumXY] at ih ⊢
    rw [ih]
    ring

theorem denom_nil : denom [] = 0 := by simp [denom, sumXX, sumX]

/-- C6: `fit` is ordinary least squares with no regularization — on success its
residuals satisfy both normal equations (they sum to zero and are orthogonal
to the predictor) — and it fails with the `ValueError` exactly on training
sets whose predictor column has zero variance (`denom = 0`), succeeding on
every non-degenerate one. -/
theorem fit_ols (tr : Dataset) :
    (denom tr = 0 → fit tr = Except.error fitErrMsg) ∧
      (denom tr ≠ 0 → ∃ m, fit tr = Except.ok m ∧
        (tr.map fun r => r.2 - predict m r.1).sum = 0 ∧
        (tr.map fun r => r.1 * (r.2 - predict m r.1)).sum = 0) := by
  constructor
  · intro h
    simp [fit, h]
  · intro h
    have hnil : tr ≠ [] := fun hn => h (hn ▸ denom_nil)
    have hn : (tr.length : ℚ) ≠ 0 :=
      Nat.cast_ne_zero.mpr (List.length_pos.mpr hnil).ne'
    refine ⟨⟨fitSlope tr, fitIntercept tr⟩, by simp [fit, h], ?_, ?_⟩
    · have := sum_map_resid tr (fitSlope tr) (fitIntercept tr)
      simp only [predict] at this ⊢
      rw [this, fitIntercept]
      field_simp
    · have heq := sum_map_xresid tr (fitSlope tr) (fitIntercept tr)
      simp only [predict] at heq ⊢
      rw [heq, fitIntercept, fitSlope]
      have hd : (tr.length : ℚ) * sumXX tr - sumX tr * sumX tr ≠ 0 := by
        simpa [denom] using h
      simp only [denom]
      field_simp
      ring

/-- C6 witness: the empty set is degenerate and `fit` fails on it; the set
`{(0,0),(1,1)}` has predictor variance `denom = 1 ≠ 0` and `fit` succeeds
with zero residual sums. -/
theorem fit_ols_witness :
    (denom [] = 0 ∧ fit [] = Except.error fitErrMsg) ∧
      (denom [((0:ℚ),(0:ℚ)), (1,1)] ≠ 0 ∧
        ∃ m, fit [((0:ℚ),(0:ℚ)), (1,1)] = Except.ok m ∧
          ([((0:ℚ),(0:ℚ)), (1,1)].map fun r => r.2 - predict m r.1).sum = 0 ∧
          ([((0:ℚ),(0:ℚ)), (1,1)].map fun r => r.1 * (r.2 - predict m r.1)).sum = 0) :=
  ⟨⟨denom_nil, (fit_ols []).1 denom_nil⟩,
    ⟨by norm_num [denom, sumXX, sumX],
      (fit_ols _).2 (by norm_num [denom, sumXX, sumX])⟩⟩

/-- C4: the split is deterministic — two calls on the same dataset with the
same fraction and the same seed yield identical train/test partitions.
(The seeded sampling of polars is a pure function of its inputs, which the
embedding reflects; determinism is then a two-run equality over `split`.) -/
theorem split_deterministic (df : Dataset) (fraction : ℚ) (seed : ℕ)
    (tr₁ te₁ tr₂ te₂ : Dataset)
    (h₁ : split df fraction seed = Except.ok (tr₁, te₁))
    (h₂ : split df fraction seed = Except.ok (tr₂, te₂)) :
    tr₁ = tr₂ ∧ te₁ = te₂ := by
  rw [h₁] at h₂
  injection h₂ with h
  exact ⟨congrArg Prod.fst h, congrArg Prod.snd h⟩

theorem sampleGo_nil (st k : ℕ) : sampleGo st k [] = [] := by
  cases k <;> simp [sampleGo]

/-- C4 witness: two runs of the same concrete split agree. -/
theorem split_deterministic_witness :
    split ([] : Dataset) (1/2) 55 = Except.ok ([], []) ∧
      (([] : Dataset) = [] ∧ ([] : Dataset) = []) :=
  ⟨by norm_num [split, sampleRows, sampleGo_nil],
    split_deterministic [] (1/2) 55 [] [] [] []
      (by norm_num [split, sampleRows, sampleGo_nil])
      (by norm_num [split, sampleRows, sampleGo_nil])⟩

/-- C7: `split` fails — with the `ValueError` — exactly when the fraction lies
outside the open interval (0,1); for every fraction inside it returns a
train/test pair without error. -/
theorem split_valueError (df : Dataset) (fraction : ℚ) (seed : ℕ) :
    (¬(0 < fraction ∧ fraction < 1) →
        split df fraction seed = Except.error splitErrMsg) ∧
      ((0 < fraction ∧ fraction < 1) →
        ∃ tr te, split df fraction seed = Except.ok (tr, te)) := by
  constructor
  · intro h
    simp [split, h]
  · intro h
    refine ⟨sampleRows seed (sampleCount fraction df.length) df,
      df.filter (fun r =>
        decide (r ∉ sampleRows seed (sampleCount fraction df.length) df)), ?_⟩
    simp [split, h]

/-- C7 witness: fraction `3/2` is rejected with the `ValueError`; fraction
`1/2` is accepted. -/
theorem split_valueError_witness :
    (¬((0:ℚ) < 3/2 ∧ (3/2:ℚ) < 1) ∧
        split [((1:ℚ),(2:ℚ))] (3/2) 0 = Except.error splitErrMsg) ∧
      (((0:ℚ) < 1/2 ∧ (1/2:ℚ) < 1) ∧
        ∃ tr te, split [((1:ℚ),(2:ℚ))] (1/2) 0 = Except.ok (tr, te)) :=
  ⟨⟨by norm_num, (split_valueError [((1:ℚ),(2:ℚ))] (3/2) 0).1 (by norm_num)⟩,
    ⟨by norm_num, (split_valueError [((1:ℚ),(2:ℚ))] (1/2) 0).2 (by norm_num)⟩⟩

theorem getObject_putObject (s : Store) (k : String) (v : Blob) :
    getObject (putObject s k v) k = some v := by
  simp [getObject, putObject]

theorem pickleLoad_pickleDump (m : Model) : pickleLoad (pickleDump m) = some m := by
  cases m with
  | mk slope icept =>
    simp only [pickleDump, pickleLoad, Option.some.injEq, Model.mk.injEq]
    constructor
    · push_cast
      exact Rat.num_div_den slope
    · push_cast
      exact Rat.num_div_den icept

/-- C3: saving a model (pickle to a buffer, upload under a key) and loading it
back from that key reproduces the slope and intercept exactly, on any store. -/
theorem save_load_roundtrip (s : Store) (m : Model) (k : String) :
    ∃ m', load_model (save_model s m k) k = some m' ∧
      m'.slope = m.slope ∧ m'.intercept = m.intercept := by
  refine ⟨m, ?_, rfl, rfl⟩
  simp [load_model, save_model, getObject_putObject, pickleLoad_pickleDump]

/-- C8: every pipeline-step error propagates to the caller uncaught — shown
here for the read step — except the best-effort cleanup: whichever way either
delete call ends (normally, or raising on a missing artifact), the cleanup
returns normally, logging the failure, and the run continues past it (the
run reaches the outcome it has when both deletes succeed). -/
theorem andThen_ok {α β : Type} (a : α) (f : α → Except String β) :
    andThen (Except.ok a) f = f a := rfl

theorem andThen_error {α β : Type} (e : String) (f : α → Except String β) :
    andThen (Except.error e) f = Except.error e := rfl

theorem withModel_some {β : Type} (m : Model) (err : String)
    (f : Model → Except String β) : withModel (some m) err f = f m := rfl

theorem withModel_none {β : Type} (err : String)
    (f : Model → Except String β) : withModel none err f = Except.error err := rfl

theorem cleanup_best_effort (delV1 delV2 : Except String Unit)
    (data1 : Except String Dataset) (store : Store) (e : String) :
    (data1 = Except.error e →
        runPhase1 delV1 delV2 data1 store = Except.error e) ∧
      cleanup (Except.error e) delV2 store = (store, [e, delFailMsg]) ∧
      cleanup (Except.ok ()) (Except.error e) store
        = (deleteObject store keyV1, [e, delFailMsg]) ∧
      isOk (runPhase1 delV1 delV2 data1 store)
        = isOk (runPhase1 (Except.ok ()) (Except.ok ()) data1 store) := by
  refine ⟨?_, rfl, rfl, ?_⟩
  · intro h
    simp only [runPhase1]
    rw [h, andThen_error]
  · cases data1 with
    | error e' => rfl
    | ok df =>
      simp only [runPhase1, andThen_ok]
      cases htm : trainModel df with
      | error e' => rw [andThen_error, andThen_error]
      | ok t => rw [andThen_ok, andThen_ok]; rfl

/-- C8 witness: a failing read propagates its error through the run even when
both deletes raised. -/
theorem cleanup_best_effort_witness :
    runPhase1 (Except.error "NoSuchKey") (Except.error "NoSuchKey")
        (Except.error "IOError: data1 unreachable") [] =
      Except.error "IOError: data1 unreachable" :=
  (cleanup_best_effort (Except.error "NoSuchKey") (Except.error "NoSuchKey")
    (Except.error "IOError: data1 unreachable") [] "IOError: data1 unreachable").1 rfl

/-- C9: the two deletes sit in one `try` block, in sequence.  If deleting the
v1 artifact raises, the cleanup stops there: its result does not depend on the
outcome of the v2 delete, the store — in particular the v2 artifact — is untouched,
and the failure is logged. -/
theorem cleanup_v1_failure_leaves_v2 (store : Store) (e : String)
    (delV2 delV2' : Except String Unit) :
    (cleanup (Except.error e) delV2 store).1 = store ∧
      cleanup (Except.error e) delV2 store = cleanup (Except.error e) delV2' store ∧
      getObject (cleanup (Except.error e) delV2 store).1 keyV2
        = getObject store keyV2 ∧
      (cleanup (Except.error e) delV2 store).2 = [e, delFailMsg] :=
  ⟨rfl, rfl, rfl, rfl⟩

theorem getObject_deleteObject_ne (s : Store) (k k' : String) (h : k' ≠ k) :
    getObject (deleteObject s k) k' = getObject s k' := by
  induction s with
  | nil => rfl
  | cons a s ih =>
    obtain ⟨ak, av⟩ := a
    by_cases hak : ak = k
    · rw [deleteObject, if_pos hak, ih, getObject,
        if_neg (show ¬ak = k' from fun he => h (he ▸ hak))]
    · rw [deleteObject, if_neg hak, getObject, getObject]
      by_cases hak2 : ak = k'
      · rw [if_pos hak2, if_pos hak2]
      · rw [if_neg hak2, if_neg hak2, ih]

theorem getObject_putObject_ne (s : Store) (k k' : String) (v : Blob)
    (h : k' ≠ k) : getObject (putObject s k v) k' = getObject s k' := by
  rw [putObject, getObject, if_neg (fun he => h he.symm),
    getObject_deleteObject_ne s k k' h]

/-- C10: once phase 1 has stored the initial model under the v1 key, the
object at that key is exactly the pickled initial model, and the whole retrain
sequence — which writes only the v2 key — leaves it unchanged. -/
theorem v1_key_frame (delV1 delV2 : Except String Unit)
    (data1 data2 : Except String Dataset) (store : Store) (out : Phase1Out)
    (h1 : runPhase1 delV1 delV2 data1 store = Except.ok out) :
    getObject out.store keyV1 = some (pickleDump out.model) ∧
      ∀ st2 m2 r2, runPhase2 data2 out.store = Except.ok (st2, m2, r2) →
        getObject st2 keyV1 = some (pickleDump out.model) := by
  cases data1 with
  | error e =>
    simp only [runPhase1, andThen_error] at h1
    exact absurd h1 (by simp)
  | ok df =>
    cases htm : trainModel df with
    | error e =>
      simp only [runPhase1, andThen_ok, htm, andThen_error] at h1
      exact absurd h1 (by simp)
    | ok p =>
      obtain ⟨tr, te, m1⟩ := p
      simp only [runPhase1, andThen_ok, htm] at h1
      rw [Except.ok.injEq] at h1
      subst h1
      have hv1 : getObject (save_model (cleanup delV1 delV2 store).1 m1 keyV1) keyV1
          = some (pickleDump m1) :=
        getObject_putObject _ keyV1 (pickleDump m1)
      refine ⟨hv1, ?_⟩
      intro st2 m2 r2 h2
      have hlm : load_model (save_model (cleanup delV1 delV2 store).1 m1 keyV1) keyV1
          = some m1 := by
        rw [load_model, hv1]
        exact pickleLoad_pickleDump m1
      cases data2 with
      | error e =>
        simp only [runPhase2, hlm, withModel_some, andThen_error] at h2
        exact absurd h2 (by simp)
      | ok df2 =>
        cases htm2 : trainModel df2 with
        | error e =>
          simp only [runPhase2, hlm, withModel_some, andThen_ok, htm2,
            andThen_error] at h2
          exact absurd h2 (by simp)
        | ok p2 =>
          obtain ⟨tr2, te2, m2'⟩ := p2
          simp only [runPhase2, hlm, withModel_some, andThen_ok, htm2] at h2
          rw [Except.ok.injEq] at h2
          have hst2 : st2 = save_model (save_model (cleanup delV1 delV2 store).1 m1 keyV1)
              m2' keyV2 :=
            (congrArg Prod.fst h2).symm
          rw [hst2, save_model, getObject_putObject_ne _ _ _ _ (by decide), hv1]

theorem countW : sampleCount TRAIN_FRAC 4 = 2 := by
  rw [sampleCount, TRAIN_FRAC]
  rw [show ((7:ℚ)/10 * ((4:ℕ) : ℚ)) = 14/5 by norm_num]
  rw [show ((14:ℚ)/5).floor = ⌊(14:ℚ)/5⌋ from rfl]
  rw [show ⌊(14:ℚ)/5⌋ = 2 from Int.floor_eq_iff.mpr (by norm_num)]
  rfl

theorem df1W_sample : sampleRows SEED 2 [((0:ℚ),(0:ℚ)), (1,1), (2,2), (3,3)]
    = [(0,0), (2,2)] := by
  rw [sampleRows, SEED, show lcg 55 = 563808676 by norm_num [lcg]]
  rw [sampleGo]
  norm_num [sampleGo, lcg, List.get, List.eraseIdx]

theorem df1W_split : split [((0:ℚ),(0:ℚ)), (1,1), (2,2), (3,3)] TRAIN_FRAC SEED
    = Except.ok ([(0,0), (2,2)], [(1,1), (3,3)]) := by
  rw [split, if_pos (by rw [TRAIN_FRAC]; norm_num)]
  rw [show ([((0:ℚ),(0:ℚ)), (1,1), (2,2), (3,3)] : Dataset).length = 4 from rfl]
  rw [countW, df1W_sample]
  norm_num [List.filter, Prod.ext_iff]

theorem df1W_fit : fit [((0:ℚ),(0:ℚ)), (2,2)] = Except.ok ⟨1, 0⟩ := by
  norm_num [fit, fitSlope, fitIntercept, denom, sumX, sumY, sumXX, sumXY]

theorem df1W_train : trainModel [((0:ℚ),(0:ℚ)), (1,1), (2,2), (3,3)]
    = Except.ok ([(0,0), (2,2)], [(1,1), (3,3)], ⟨1, 0⟩) := by
  rw [trainModel, df1W_split, andThen_ok, df1W_fit, andThen_ok]

theorem df1W_score_tr : score ⟨1, 0⟩ [((0:ℚ),(0:ℚ)), (2,2)] = 1 := by
  norm_num [score, r2_score, ssRes, ssTot, predict]

theorem df1W_score_te : score ⟨1, 0⟩ [((1:ℚ),(1:ℚ)), (3,3)] = 1 := by
  norm_num [score, r2_score, ssRes, ssTot, predict]

theorem runPhase1W : runPhase1 (Except.ok ()) (Except.ok ())
    (Except.ok [((0:ℚ),(0:ℚ)), (1,1), (2,2), (3,3)]) []
    = Except.ok ⟨[(keyV1, pickleDump ⟨1, 0⟩)], [], ⟨1, 0⟩, 1, 1⟩ := by
  rw [runPhase1, andThen_ok, df1W_train, andThen_ok, df1W_score_tr, df1W_score_te]
  rfl

theorem df2W_sample : sampleRows SEED 2 [((0:ℚ),(1:ℚ)), (1,3), (2,5), (3,7)]
    = [(0,1), (2,5)] := by
  rw [sampleRows, SEED, show lcg 55 = 563808676 by norm_num [lcg]]
  rw [sampleGo]
  norm_num [sampleGo, lcg, List.get, List.eraseIdx]

theorem df2W_split : split [((0:ℚ),(1:ℚ)), (1,3), (2,5), (3,7)] TRAIN_FRAC SEED
    = Except.ok ([(0,1), (2,5)], [(1,3), (3,7)]) := by
  rw [split, if_pos (by rw [TRAIN_FRAC]; norm_num)]
  rw [show ([((0:ℚ),(1:ℚ)), (1,3), (2,5), (3,7)] : Dataset).length = 4 from rfl]
  rw [countW, df2W_sample]
  norm_num [List.filter, Prod.ext_iff]

theorem df2W_fit : fit [((0:ℚ),(1:ℚ)), (2,5)] = Except.ok ⟨2, 1⟩ := by
  norm_num [fit, fitSlope, fitIntercept, denom, sumX, sumY, sumXX, sumXY]

theorem df2W_train : trainModel [((0:ℚ),(1:ℚ)), (1,3), (2,5), (3,7)]
    = Except.ok ([(0,1), (2,5)], [(1,3), (3,7)], ⟨2, 1⟩) := by
  rw [trainModel, df2W_split, andThen_ok, df2W_fit, andThen_ok]

theorem df2W_score_loaded : score ⟨1, 0⟩ [((0:ℚ),(1:ℚ)), (1,3), (2,5), (3,7)] = -(1/2) := by
  norm_num [score, r2_score, ssRes, ssTot, predict]

theorem load_modelW : load_model [(keyV1, pickleDump ⟨1, 0⟩)] keyV1 = some ⟨1, 0⟩ := by
  rw [load_model, getObject, if_pos rfl]
  exact pickleLoad_pickleDump ⟨1, 0⟩

theorem runPhase2W : runPhase2 (Except.ok [((0:ℚ),(1:ℚ)), (1,3), (2,5), (3,7)])
    [(keyV1, pickleDump ⟨1, 0⟩)]
    = Except.ok ([(keyV2, pickleDump ⟨2, 1⟩), (keyV1, pickleDump ⟨1, 0⟩)],
        ⟨2, 1⟩, -(1/2)) := by
  rw [runPhase2, load_modelW, withModel_some, andThen_ok, df2W_train, andThen_ok,
    df2W_score_loaded]
  rfl

theorem v1_key_frame_witness :
    runPhase1 (Except.ok ()) (Except.ok ())
        (Except.ok [((0:ℚ),(0:ℚ)), (1,1), (2,2), (3,3)]) []
      = Except.ok ⟨[(keyV1, pickleDump ⟨1, 0⟩)], [], ⟨1, 0⟩, 1, 1⟩ ∧
      runPhase2 (Except.ok [((0:ℚ),(1:ℚ)), (1,3), (2,5), (3,7)])
          [(keyV1, pickleDump ⟨1, 0⟩)]
        = Except.ok ([(keyV2, pickleDump ⟨2, 1⟩), (keyV1, pickleDump ⟨1, 0⟩)],
            ⟨2, 1⟩, -(1/2)) ∧
      getObject [(keyV1, pickleDump (⟨1, 0⟩ : Model))] keyV1
        = some (pickleDump (⟨1, 0⟩ : Model)) ∧
      getObject [(keyV2, pickleDump (⟨2, 1⟩ : Model)),
          (keyV1, pickleDump (⟨1, 0⟩ : Model))] keyV1
        = some (pickleDump (⟨1, 0⟩ : Model)) := by
  have h := v1_key_frame (Except.ok ()) (Except.ok ())
    (Except.ok [((0:ℚ),(0:ℚ)), (1,1), (2,2), (3,3)])
    (Except.ok [((0:ℚ),(1:ℚ)), (1,3), (2,5), (3,7)]) []
    ⟨[(keyV1, pickleDump ⟨1, 0⟩)], [], ⟨1, 0⟩, 1, 1⟩ runPhase1W
  exact ⟨runPhase1W, runPhase2W, h.1, h.2 _ _ _ runPhase2W⟩

/-- C9 instance: a concrete cleanup run in which the v1 delete raises. -/
theorem cleanup_v1_failure_leaves_v2_witness :
    (cleanup (Except.error "AccessDenied") (Except.ok ())
        [(keyV2, pickleDump (⟨2, 1⟩ : Model))]).1 = [(keyV2, pickleDump (⟨2, 1⟩ : Model))] ∧
      cleanup (Except.error "AccessDenied") (Except.ok ())
          [(keyV2, pickleDump (⟨2, 1⟩ : Model))]
        = cleanup (Except.error "AccessDenied") (Except.error "NoSuchKey")
            [(keyV2, pickleDump (⟨2, 1⟩ : Model))] ∧
      getObject (cleanup (Except.error "AccessDenied") (Except.ok ())
          [(keyV2, pickleDump (⟨2, 1⟩ : Model))]).1 keyV2
        = getObject [(keyV2, pickleDump (⟨2, 1⟩ : Model))] keyV2 ∧
      (cleanup (Except.error "AccessDenied") (Except.ok ())
          [(keyV2, pickleDump (⟨2, 1⟩ : Model))]).2 = ["AccessDenied", delFailMsg] :=
  cleanup_v1_failure_leaves_v2 [(keyV2, pickleDump (⟨2, 1⟩ : Model))] "AccessDenied"
    (Except.ok ()) (Except.error "NoSuchKey")

end MLModel
